import Mathlib

/-!
Shallow embedding of `src/monitor.py` (Weather-Forecast health monitor).

Modelling conventions:
* Wall-clock instants are integers (epoch seconds).  `datetime.utcnow()` is the
  parameter `now : Int` of each operation; `datetime.utcnow().isoformat()`
  yields a timezone-naive, parseable timestamp string, modelled as
  `TimeStr.naive now`.
* Timestamp strings are abstracted by `TimeStr`: a string either parses (after
  the code applies `.replace` of the Z suffix with a zero offset, where it
  does) to a timezone-naive datetime at instant `t` (`naive t`), parses to a
  timezone-aware datetime at instant `t` (`aware t`, i.e. the string carried a
  Z suffix or UTC offset), fails to parse (`malformed`), or is the empty
  string (`empty`, which is falsy in Python and fails to parse).
* Python exception flow is explicit: `datetime.fromisoformat` returns
  `Option PyDT` (`none` = ValueError raised); subtracting datetimes of mixed
  awareness raises TypeError, so subtraction returns `Option Int` (seconds).
  Operations of the source that can propagate an exception to the caller
  return `Except Unit _`.
* Python `int(x)` on the float `seconds / 60` truncates toward zero, which on
  integer seconds is `Int.tdiv`.
* Timedeltas carry integer seconds here; the thresholds `< timedelta(hours=2)`,
  `> 12` hours and `<= 12` hours become `< 7200`, `> 43200`, `≤ 43200` seconds.
-/

/-- Abstraction of a Python string in a timestamp position. -/
inductive TimeStr : Type
  | naive (t : Int)
  | aware (t : Int)
  | malformed
  | empty
  deriving DecidableEq, Repr

/-- A Python `datetime` object: timezone-naive or timezone-aware, at an
instant measured in epoch seconds. -/
inductive PyDT : Type
  | naive (t : Int)
  | aware (t : Int)
  deriving DecidableEq, Repr

/-- Python truthiness of a string: only the empty string is falsy. -/
def TimeStr.truthy : TimeStr → Bool
  | .empty => false
  | _ => true

/-- Python truthiness of an optional string field: `None` and `""` are falsy. -/
def truthyOpt : Option TimeStr → Bool
  | none => false
  | some s => s.truthy

/-- `datetime.fromisoformat` on a timestamp string (`none` = ValueError). -/
def fromisoformat : TimeStr → Option PyDT
  | .naive t => some (.naive t)
  | .aware t => some (.aware t)
  | .malformed => none
  | .empty => none

/-- Subtraction `a - b` of two `datetime`s, in whole seconds; mixing naive and
aware operands raises TypeError (`none`). -/
def pySub : PyDT → PyDT → Option Int
  | .naive a, .naive b => some (a - b)
  | .aware a, .aware b => some (a - b)
  | _, _ => none

/-- One entry of `outage_history` (monitor.py lines 114-118). -/
structure OutageEvent : Type where
  start : TimeStr
  stop : TimeStr
  duration_minutes : Int
  deriving DecidableEq, Repr

/-- A location's health record: the dict built at monitor.py lines 71-82 plus
the keys added later (`last_attempt`, `last_error`, `last_stale_warning`).
For those three, the outer `Option` is key presence; `last_error`'s inner
`Option String` is the nullable message value. -/
structure LocationRecord : Type where
  first_seen : TimeStr
  total_attempts : Int
  successful_attempts : Int
  failed_attempts : Int
  last_attempt : Option TimeStr
  last_success : Option TimeStr
  last_failure : Option TimeStr
  last_error : Option (Option String)
  current_outage_start : Option TimeStr
  outage_history : List OutageEvent
  last_forecast_time : Option TimeStr
  stale_forecast_count : Int
  last_stale_warning : Option TimeStr
  deriving DecidableEq, Repr

/-- The `health_data` document: `locations` is a Python dict (string-keyed,
insertion-ordered, unique keys), modelled as an association list. -/
structure HealthStore : Type where
  locations : List (String × LocationRecord)
  last_updated : Option TimeStr
  deriving DecidableEq, Repr

/-- The store `_load_health_data` returns when the file is missing or
unreadable (monitor.py lines 37-40). -/
def emptyStore : HealthStore := { locations := [], last_updated := none }

/-- Dict lookup `self.health_data["locations"].get(location)`. -/
def lookupLoc (s : HealthStore) (location : String) : Option LocationRecord :=
  s.locations.lookup location

/-- Dict write `self.health_data["locations"][location] = r`: replaces the
binding in place if the key exists, otherwise appends (Python dicts keep
insertion order). -/
def setLoc : List (String × LocationRecord) → String → LocationRecord →
    List (String × LocationRecord)
  | [], location, r => [(location, r)]
  | (k, v) :: rest, location, r =>
      if k = location then (k, r) :: rest else (k, v) :: setLoc rest location r

/-- The fresh record created at monitor.py lines 71-82. -/
def initRecord (now : Int) : LocationRecord :=
  { first_seen := .naive now
    total_attempts := 0
    successful_attempts := 0
    failed_attempts := 0
    last_attempt := none
    last_success := none
    last_failure := none
    last_error := none
    current_outage_start := none
    outage_history := []
    last_forecast_time := none
    stale_forecast_count := 0
    last_stale_warning := none }

/-- `_calculate_duration(start_iso, end_iso)` (monitor.py lines 132-139):
parse both timestamps, subtract, truncate the minute count toward zero;
any exception inside the `try` yields 0. -/
def _calculate_duration (start_iso end_iso : TimeStr) : Int :=
  match fromisoformat start_iso, fromisoformat end_iso with
  | some ds, some de =>
      match pySub de ds with
      | some secs => Int.tdiv secs 60
      | none => 0
  | _, _ => 0

/-- The `if forecast_time:` block of the success branch (monitor.py lines
93-106).  The raw string is stored into `last_forecast_time` whenever truthy,
BEFORE the parse is attempted; the staleness tally then runs inside a `try`:
a Z-suffixed/offset string parses to an aware datetime and the subtraction
from naive `utcnow()` raises TypeError, swallowed by the bare `except`. -/
def applyForecastTime (now : Int) (forecast_time : Option TimeStr)
    (loc : LocationRecord) : LocationRecord :=
  match forecast_time with
  | none => loc
  | some f =>
      if f.truthy then
        let loc1 := { loc with last_forecast_time := some f }
        match fromisoformat f with
        | none => loc1
        | some fdt =>
            match pySub (.naive now) fdt with
            | none => loc1
            | some secs =>
                if secs > 43200 then
                  { loc1 with
                      stale_forecast_count := loc1.stale_forecast_count + 1
                      last_stale_warning := some (.naive now) }
                else loc1
      else loc

/-- Lines 70-84 of monitor.py: the record the call works on — the existing
binding, or the fresh record of lines 71-82 for a never-seen location. -/
def prevRecord (prev : Option LocationRecord) (now : Int) : LocationRecord :=
  match prev with
  | some r => r
  | none => initRecord now

/-- The per-record body of `record_attempt` (monitor.py lines 70-127):
`prev` is the binding looked up for the location before the call. -/
def stepRecord (prev : Option LocationRecord) (success : Bool)
    (forecast_time : Option TimeStr) (error_message : Option String)
    (now : Int) : LocationRecord :=
  let loc0 := prevRecord prev now
  let loc1 := { loc0 with
      total_attempts := loc0.total_attempts + 1
      last_attempt := some (.naive now) }
  let loc2 :=
    if success then
      let a := { loc1 with
          successful_attempts := loc1.successful_attempts + 1
          last_success := some (.naive now) }
      let b := applyForecastTime now forecast_time a
      if truthyOpt b.current_outage_start then
        let startTs := b.current_outage_start.getD .empty
        { b with
            outage_history := b.outage_history ++
              [{ start := startTs
                 stop := .naive now
                 duration_minutes := _calculate_duration startTs (.naive now) }]
            current_outage_start := none }
      else b
    else
      let a := { loc1 with
          failed_attempts := loc1.failed_attempts + 1
          last_failure := some (.naive now)
          last_error := some error_message }
      if truthyOpt a.current_outage_start then a
      else { a with current_outage_start := some (.naive now) }
  loc2

/-- `record_attempt` (monitor.py lines 50-130).  `now` is the single clock
reading of the call; persistence (`_save_health_data`) is effect-free on the
in-memory store and is not modelled. -/
def record_attempt (s : HealthStore) (location : String) (success : Bool)
    (forecast_time : Option TimeStr) (error_message : Option String)
    (now : Int) : HealthStore :=
  { locations := setLoc s.locations location
      (stepRecord (lookupLoc s location) success forecast_time error_message now)
    last_updated := some (.naive now) }

/-- The status object returned by `get_location_status`, with each branch's
computed message numbers and carried fields made explicit. -/
inductive Status : Type
  | unknown (message : String)
  | offline (outage_minutes : Int) (outage_start : TimeStr)
      (last_error : Option String)
  | warning (stale_count : Int) (last_success : TimeStr)
  | online (last_success : TimeStr) (last_forecast_time : Option TimeStr)
  | stale (hours : Int) (last_success : TimeStr)
  deriving DecidableEq, Repr

/-- Lines 172-202 of monitor.py: the branch of `get_location_status` reached
when no outage is open.  The parse of `last_success` at line 174 and the
subtraction at line 175 run OUTSIDE any `try`, so a stored record whose
`last_success` string is malformed (or timezone-aware) makes the call raise:
modelled as `.error ()`. -/
def statusFromLastSuccess (loc : LocationRecord) (now : Int) :
    Except Unit Status :=
  match loc.last_success with
  | none => .ok (.unknown "No successful fetches yet")
  | some ls =>
      if ls.truthy then
        match fromisoformat ls with
        | none => .error ()
        | some d =>
            match pySub (.naive now) d with
            | none => .error ()
            | some secs =>
                if secs < 7200 then
                  if loc.stale_forecast_count > 0 then
                    .ok (.warning loc.stale_forecast_count ls)
                  else .ok (.online ls loc.last_forecast_time)
                else .ok (.stale (Int.tdiv secs 3600) ls)
      else .ok (.unknown "No successful fetches yet")

/-- `get_location_status` (monitor.py lines 141-202).  `now` is the clock
reading; the two `datetime.utcnow()` reads inside the body are the same
instant in this model. -/
def get_location_status (s : HealthStore) (location : String) (now : Int) :
    Except Unit Status :=
  match lookupLoc s location with
  | none => .ok (.unknown "No forecast attempts recorded")
  | some loc =>
      match loc.current_outage_start with
      | some cos =>
          if cos.truthy then
            .ok (.offline (_calculate_duration cos (.naive now)) cos
              (match loc.last_error with
               | none => some "Unknown error"
               | some v => v))
          else statusFromLastSuccess loc now
      | none => statusFromLastSuccess loc now

/-- The value found at the `updated` key of a forecast payload: a string
(abstracted as a `TimeStr`) or a non-string JSON value, on which `.replace`
raises AttributeError. -/
inductive UpdatedVal : Type
  | str (s : TimeStr)
  | nonstr
  deriving DecidableEq, Repr

/-- `check_data_freshness` (monitor.py lines 331-355): `updated` is the
payload's `updated` field (`none` = key absent).  Everything runs in one
`try` whose handler returns True; a Z-suffixed/offset timestamp parses to an
aware datetime and subtracting it from naive `utcnow()` raises TypeError,
so it also lands in the handler. -/
def check_data_freshness (updated : Option UpdatedVal) (now : Int) : Bool :=
  match updated with
  | none => true
  | some .nonstr => true
  | some (.str ts) =>
      match fromisoformat ts with
      | none => true
      | some d =>
          match pySub (.naive now) d with
          | none => true
          | some secs => decide (secs ≤ 43200)

/-- One `record_attempt` invocation's arguments, `now` included. -/
structure Call : Type where
  location : String
  success : Bool
  forecast_time : Option TimeStr
  error_message : Option String
  now : Int
  deriving Repr

/-- Run a sequence of `record_attempt` calls, oldest first. -/
def runCalls (s : HealthStore) : List Call → HealthStore
  | [] => s
  | c :: rest =>
      runCalls (record_attempt s c.location c.success c.forecast_time
        c.error_message c.now) rest

/-- The success flag of the most recent call in `calls` for `location`
(`none` if that location was never called). -/
def lastOutcome (location : String) : List Call → Option Bool
  | [] => none
  | c :: rest =>
      match lastOutcome location rest with
      | some b => some b
      | none => if c.location = location then some c.success else none

/-- A JSON value as produced/consumed by `json.dump`/`json.load`.  Strings in
timestamp positions are abstracted as `TimeStr` (constructor `tstr`), other
strings stay `String`; both are JSON strings in the concrete document. -/
inductive JVal : Type
  | null
  | jbool (b : Bool)
  | jint (n : Int)
  | jstr (s : String)
  | tstr (t : TimeStr)
  | arr (xs : List JVal)
  | obj (fields : List (String × JVal))

/-- Serialize a nullable timestamp field. -/
def optTimeJ : Option TimeStr → JVal
  | none => .null
  | some t => .tstr t

/-- Read back a nullable timestamp field. -/
def decodeOptTime : JVal → Option (Option TimeStr)
  | .null => some none
  | .tstr t => some (some t)
  | _ => none

/-- Serialize one `outage_history` entry (keys as written at monitor.py
lines 114-118). -/
def outageEventToJson (e : OutageEvent) : JVal :=
  .obj [("start", .tstr e.start), ("end", .tstr e.stop),
    ("duration_minutes", .jint e.duration_minutes)]

/-- Read back one `outage_history` entry. -/
def outageEventFromJson : JVal → Option OutageEvent
  | .obj [("start", .tstr s), ("end", .tstr e), ("duration_minutes", .jint d)] =>
      some { start := s, stop := e, duration_minutes := d }
  | _ => none

/-- Read back an `outage_history` array element by element. -/
def decodeOutages : List JVal → Option (List OutageEvent)
  | [] => some []
  | j :: rest =>
      match outageEventFromJson j, decodeOutages rest with
      | some e, some es => some (e :: es)
      | _, _ => none

/-- Serialize a `LocationRecord` to the JSON object `json.dump` writes: the
ten template keys of monitor.py lines 71-82 in creation order, then the
keys added later by `record_attempt` when present. -/
def recordToJson (r : LocationRecord) : JVal :=
  .obj (("first_seen", .tstr r.first_seen) ::
    ("total_attempts", .jint r.total_attempts) ::
    ("successful_attempts", .jint r.successful_attempts) ::
    ("failed_attempts", .jint r.failed_attempts) ::
    ("last_success", optTimeJ r.last_success) ::
    ("last_failure", optTimeJ r.last_failure) ::
    ("current_outage_start", optTimeJ r.current_outage_start) ::
    ("outage_history", .arr (r.outage_history.map outageEventToJson)) ::
    ("last_forecast_time", optTimeJ r.last_forecast_time) ::
    ("stale_forecast_count", .jint r.stale_forecast_count) ::
    ((match r.last_attempt with
      | none => []
      | some t => [("last_attempt", JVal.tstr t)]) ++
     (match r.last_error with
      | none => []
      | some none => [("last_error", JVal.null)]
      | some (some m) => [("last_error", JVal.jstr m)]) ++
     (match r.last_stale_warning with
      | none => []
      | some t => [("last_stale_warning", JVal.tstr t)])))

/-- Consume a leading `last_attempt` key if there is one. -/
def takeLastAttempt : List (String × JVal) →
    Option TimeStr × List (String × JVal)
  | ("last_attempt", .tstr t) :: rest => (some t, rest)
  | fields => (none, fields)

/-- Consume a leading `last_error` key if there is one. -/
def takeLastError : List (String × JVal) →
    Option (Option String) × List (String × JVal)
  | ("last_error", .null) :: rest => (some none, rest)
  | ("last_error", .jstr m) :: rest => (some (some m), rest)
  | fields => (none, fields)

/-- Consume a leading `last_stale_warning` key if there is one. -/
def takeLastStaleWarning : List (String × JVal) →
    Option TimeStr × List (String × JVal)
  | ("last_stale_warning", .tstr t) :: rest => (some t, rest)
  | fields => (none, fields)

/-- Read back a `LocationRecord` from its JSON object. -/
def recordFromJson : JVal → Option LocationRecord
  | .obj (("first_seen", .tstr fs) ::
      ("total_attempts", .jint ta) ::
      ("successful_attempts", .jint sa) ::
      ("failed_attempts", .jint fa) ::
      ("last_success", lsJ) ::
      ("last_failure", lfJ) ::
      ("current_outage_start", coJ) ::
      ("outage_history", .arr ohJ) ::
      ("last_forecast_time", lftJ) ::
      ("stale_forecast_count", .jint sfc) :: tail) =>
      match decodeOptTime lsJ, decodeOptTime lfJ, decodeOptTime coJ,
          decodeOutages ohJ, decodeOptTime lftJ with
      | some ls, some lf, some co, some oh, some lft =>
          let p1 := takeLastAttempt tail
          let p2 := takeLastError p1.2
          let p3 := takeLastStaleWarning p2.2
          match p3.2 with
          | [] => some
              { first_seen := fs
                total_attempts := ta
                successful_attempts := sa
                failed_attempts := fa
                last_attempt := p1.1
                last_success := ls
                last_failure := lf
                last_error := p2.1
                current_outage_start := co
                outage_history := oh
                last_forecast_time := lft
                stale_forecast_count := sfc
                last_stale_warning := p3.1 }
          | _ => none
      | _, _, _, _, _ => none
  | _ => none

/-- Read back the `locations` mapping entry by entry. -/
def decodeLocations : List (String × JVal) →
    Option (List (String × LocationRecord))
  | [] => some []
  | (k, j) :: rest =>
      match recordFromJson j, decodeLocations rest with
      | some r, some rs => some ((k, r) :: rs)
      | _, _ => none

/-- `_save_health_data` (monitor.py lines 42-48): the JSON document
`json.dump(self.health_data)` writes. -/
def storeToJson (s : HealthStore) : JVal :=
  .obj [("locations",
      .obj (s.locations.map (fun p => (p.1, recordToJson p.2)))),
    ("last_updated", optTimeJ s.last_updated)]

/-- `_load_health_data` (monitor.py lines 28-40) on a readable document:
`json.load` parses it back; this reader reconstructs the store structure. -/
def storeFromJson : JVal → Option HealthStore
  | .obj [("locations", .obj locs), ("last_updated", luJ)] =>
      match decodeLocations locs, decodeOptTime luJ with
      | some l, some lu => some { locations := l, last_updated := lu }
      | _, _ => none
  | _ => none

/-- The per-record counter invariant of the attempt recorder. -/
def countersOk (r : LocationRecord) : Prop :=
  r.total_attempts = r.successful_attempts + r.failed_attempts ∧
  0 ≤ r.total_attempts ∧ 0 ≤ r.successful_attempts ∧ 0 ≤ r.failed_attempts

/-- The open-outage shape invariant tied to each location's call history:
`current_outage_start` is null after a success (or for an untouched fresh
record) and holds a naive timestamp string after a failure. -/
def outageOk (calls : List Call) (s : HealthStore) : Prop :=
  ∀ l, (lookupLoc s l = none ∧ lastOutcome l calls = none) ∨
    (∃ r, lookupLoc s l = some r ∧
      ((lastOutcome l calls = some true ∧ r.current_outage_start = none) ∨
       (lastOutcome l calls = some false ∧
         ∃ t, r.current_outage_start = some (.naive t))))

/-- A store as read back from durable storage: valid JSON, but the record
for "A" carries a malformed `last_success` string and no open outage. -/
def malformedLoadedStore : HealthStore :=
  { locations := [("A",
      { first_seen := .naive 0
        total_attempts := 1
        successful_attempts := 1
        failed_attempts := 0
        last_attempt := some (.naive 0)
        last_success := some .malformed
        last_failure := none
        last_error := none
        current_outage_start := none
        outage_history := []
        last_forecast_time := none
        stale_forecast_count := 0
        last_stale_warning := none })]
    last_updated := some (.naive 0) }

/-! ### Helper lemmas -/

theorem tdiv_eq_fdiv_of_nonneg {a b : Int} (ha : 0 ≤ a) (hb : 0 ≤ b) :
    Int.tdiv a b = Int.fdiv a b := by
  rw [Int.tdiv_eq_ediv ha hb, Int.fdiv_eq_ediv _ hb]

theorem lookup_setLoc_self (xs : List (String × LocationRecord)) (l : String)
    (r : LocationRecord) : List.lookup l (setLoc xs l r) = some r := by
  induction xs with
  | nil => simp [setLoc, List.lookup_cons]
  | cons p t ih =>
      obtain ⟨k, v⟩ := p
      by_cases hk : k = l
      · subst hk
        simp [setLoc, List.lookup_cons]
      · simp [setLoc, hk, List.lookup_cons, ih,
          beq_false_of_ne (Ne.symm hk)]

theorem lookup_setLoc_other (xs : List (String × LocationRecord))
    (l l' : String) (r : LocationRecord) (h : l' ≠ l) :
    List.lookup l' (setLoc xs l r) = List.lookup l' xs := by
  induction xs with
  | nil => simp [setLoc, List.lookup_cons, beq_false_of_ne h]
  | cons p t ih =>
      obtain ⟨k, v⟩ := p
      by_cases hk : k = l
      · subst hk
        simp [setLoc, List.lookup_cons, beq_false_of_ne h]
      · simp [setLoc, hk, List.lookup_cons, ih]

theorem lookupLoc_record_attempt (s : HealthStore) (cl : String) (b : Bool)
    (ft : Option TimeStr) (em : Option String) (now : Int) (l : String) :
    lookupLoc (record_attempt s cl b ft em now) l =
      if l = cl then some (stepRecord (lookupLoc s cl) b ft em now)
      else lookupLoc s l := by
  by_cases h : l = cl
  · subst h
    simp [record_attempt, lookupLoc, lookup_setLoc_self]
  · simp [record_attempt, lookupLoc, lookup_setLoc_other _ _ _ _ h, h]

theorem applyForecastTime_eq (now : Int) (ft : Option TimeStr)
    (a : LocationRecord) :
    ∃ lft sfc lsw, applyForecastTime now ft a =
      { a with last_forecast_time := lft, stale_forecast_count := sfc,
               last_stale_warning := lsw } := by
  rcases ft with _ | f
  · exact ⟨a.last_forecast_time, a.stale_forecast_count,
      a.last_stale_warning, rfl⟩
  rcases f with t | t | _ | _
  · by_cases h : now - t > 43200
    · exact ⟨some (.naive t), a.stale_forecast_count + 1, some (.naive now),
        by simp [applyForecastTime, TimeStr.truthy, fromisoformat, pySub, h]⟩
    · exact ⟨some (.naive t), a.stale_forecast_count, a.last_stale_warning,
        by simp [applyForecastTime, TimeStr.truthy, fromisoformat, pySub, h]⟩
  · exact ⟨some (.aware t), a.stale_forecast_count, a.last_stale_warning,
      by simp [applyForecastTime, TimeStr.truthy, fromisoformat, pySub]⟩
  · exact ⟨some .malformed, a.stale_forecast_count, a.last_stale_warning,
      by simp [applyForecastTime, TimeStr.truthy, fromisoformat, pySub]⟩
  · exact ⟨a.last_forecast_time, a.stale_forecast_count, a.last_stale_warning,
      by simp [applyForecastTime, TimeStr.truthy]⟩

theorem aft_total (now : Int) (ft : Option TimeStr) (a : LocationRecord) :
    (applyForecastTime now ft a).total_attempts = a.total_attempts := by
  obtain ⟨lft, sfc, lsw, he⟩ := applyForecastTime_eq now ft a
  rw [he]

theorem aft_succ (now : Int) (ft : Option TimeStr) (a : LocationRecord) :
    (applyForecastTime now ft a).successful_attempts =
      a.successful_attempts := by
  obtain ⟨lft, sfc, lsw, he⟩ := applyForecastTime_eq now ft a
  rw [he]

theorem aft_failed (now : Int) (ft : Option TimeStr) (a : LocationRecord) :
    (applyForecastTime now ft a).failed_attempts = a.failed_attempts := by
  obtain ⟨lft, sfc, lsw, he⟩ := applyForecastTime_eq now ft a
  rw [he]

theorem aft_cos (now : Int) (ft : Option TimeStr) (a : LocationRecord) :
    (applyForecastTime now ft a).current_outage_start =
      a.current_outage_start := by
  obtain ⟨lft, sfc, lsw, he⟩ := applyForecastTime_eq now ft a
  rw [he]

theorem aft_hist (now : Int) (ft : Option TimeStr) (a : LocationRecord) :
    (applyForecastTime now ft a).outage_history = a.outage_history := by
  obtain ⟨lft, sfc, lsw, he⟩ := applyForecastTime_eq now ft a
  rw [he]

theorem aft_ls (now : Int) (ft : Option TimeStr) (a : LocationRecord) :
    (applyForecastTime now ft a).last_success = a.last_success := by
  obtain ⟨lft, sfc, lsw, he⟩ := applyForecastTime_eq now ft a
  rw [he]

theorem aft_lft (now : Int) (ft : Option TimeStr) (a : LocationRecord) :
    (applyForecastTime now ft a).last_forecast_time =
      if truthyOpt ft then ft else a.last_forecast_time := by
  rcases ft with _ | f
  · rfl
  rcases f with t | t | _ | _ <;>
    simp [applyForecastTime, truthyOpt, TimeStr.truthy, fromisoformat, pySub]
  by_cases h : now - t > 43200 <;> simp [h]

theorem stepRecord_failure_eq (p : Option LocationRecord) (ft : Option TimeStr)
    (em : Option String) (now : Int) :
    stepRecord p false ft em now =
      { prevRecord p now with
          total_attempts := (prevRecord p now).total_attempts + 1
          last_attempt := some (.naive now)
          failed_attempts := (prevRecord p now).failed_attempts + 1
          last_failure := some (.naive now)
          last_error := some em
          current_outage_start :=
            if truthyOpt (prevRecord p now).current_outage_start
            then (prevRecord p now).current_outage_start
            else some (.naive now) } := by
  by_cases h : truthyOpt (prevRecord p now).current_outage_start = true <;>
    simp [stepRecord, h]

theorem stepRecord_success_total (p : Option LocationRecord)
    (ft : Option TimeStr) (em : Option String) (now : Int) :
    (stepRecord p true ft em now).total_attempts =
      (prevRecord p now).total_attempts + 1 := by
  by_cases h : truthyOpt (prevRecord p now).current_outage_start = true <;>
    simp [stepRecord, aft_cos, aft_total, h]

theorem stepRecord_success_succ (p : Option LocationRecord)
    (ft : Option TimeStr) (em : Option String) (now : Int) :
    (stepRecord p true ft em now).successful_attempts =
      (prevRecord p now).successful_attempts + 1 := by
  by_cases h : truthyOpt (prevRecord p now).current_outage_start = true <;>
    simp [stepRecord, aft_cos, aft_succ, h]

theorem stepRecord_success_failed (p : Option LocationRecord)
    (ft : Option TimeStr) (em : Option String) (now : Int) :
    (stepRecord p true ft em now).failed_attempts =
      (prevRecord p now).failed_attempts := by
  by_cases h : truthyOpt (prevRecord p now).current_outage_start = true <;>
    simp [stepRecord, aft_cos, aft_failed, h]

theorem stepRecord_success_ls (p : Option LocationRecord)
    (ft : Option TimeStr) (em : Option String) (now : Int) :
    (stepRecord p true ft em now).last_success = some (.naive now) := by
  by_cases h : truthyOpt (prevRecord p now).current_outage_start = true <;>
    simp [stepRecord, aft_cos, aft_ls, h]

theorem stepRecord_success_lft (p : Option LocationRecord)
    (ft : Option TimeStr) (em : Option String) (now : Int) :
    (stepRecord p true ft em now).last_forecast_time =
      if truthyOpt ft then ft
      else (prevRecord p now).last_forecast_time := by
  by_cases h : truthyOpt (prevRecord p now).current_outage_start = true <;>
    simp [stepRecord, aft_cos, aft_lft, h]

theorem stepRecord_success_outage (p : Option LocationRecord)
    (ft : Option TimeStr) (em : Option String) (now t0 : Int)
    (hcos : (prevRecord p now).current_outage_start = some (.naive t0)) :
    (stepRecord p true ft em now).current_outage_start = none ∧
    (stepRecord p true ft em now).outage_history =
      (prevRecord p now).outage_history ++
        [{ start := .naive t0, stop := .naive now,
           duration_minutes := Int.tdiv (now - t0) 60 }] := by
  simp [stepRecord, aft_cos, aft_hist, hcos, truthyOpt, TimeStr.truthy,
    _calculate_duration, fromisoformat, pySub]

theorem stepRecord_success_nocos (p : Option LocationRecord)
    (ft : Option TimeStr) (em : Option String) (now : Int)
    (hcos : (prevRecord p now).current_outage_start = none) :
    (stepRecord p true ft em now).current_outage_start = none ∧
    (stepRecord p true ft em now).outage_history =
      (prevRecord p now).outage_history := by
  simp [stepRecord, aft_cos, aft_hist, hcos, truthyOpt]

theorem runCalls_append (s : HealthStore) (cs ds : List Call) :
    runCalls s (cs ++ ds) = runCalls (runCalls s cs) ds := by
  induction cs generalizing s with
  | nil => rfl
  | cons c t ih => simp [runCalls, ih]

theorem lastOutcome_append_single (l : String) (cs : List Call) (c : Call) :
    lastOutcome l (cs ++ [c]) =
      if c.location = l then some c.success else lastOutcome l cs := by
  induction cs with
  | nil => rfl
  | cons d t ih =>
      simp only [List.cons_append, lastOutcome, List.append_eq]
      rw [ih]
      by_cases h : c.location = l
      · simp [h]
      · simp [h]

theorem countersOk_initRecord (now : Int) : countersOk (initRecord now) := by
  simp [countersOk, initRecord]

theorem countersOk_prevRecord (p : Option LocationRecord) (now : Int)
    (hp : ∀ r, p = some r → countersOk r) : countersOk (prevRecord p now) := by
  rcases p with _ | r
  · exact countersOk_initRecord now
  · exact hp r rfl

theorem countersOk_stepRecord (p : Option LocationRecord) (b : Bool)
    (ft : Option TimeStr) (em : Option String) (now : Int)
    (hp : ∀ r, p = some r → countersOk r) :
    countersOk (stepRecord p b ft em now) := by
  obtain ⟨h1, h2, h3, h4⟩ := countersOk_prevRecord p now hp
  cases b
  · rw [countersOk, stepRecord_failure_eq]
    refine ⟨?_, ?_, ?_, ?_⟩ <;> simp <;> omega
  · rw [countersOk, stepRecord_success_total, stepRecord_success_succ,
      stepRecord_success_failed]
    refine ⟨?_, ?_, ?_, ?_⟩ <;> omega

theorem countersOk_record_attempt (s : HealthStore)
    (hs : ∀ l r, lookupLoc s l = some r → countersOk r) (c : Call) :
    ∀ l r, lookupLoc (record_attempt s c.location c.success c.forecast_time
      c.error_message c.now) l = some r → countersOk r := by
  intro l r h
  rw [lookupLoc_record_attempt] at h
  by_cases hl : l = c.location
  · rw [if_pos hl] at h
    cases h
    exact countersOk_stepRecord _ _ _ _ _ (fun r hr => hs c.location r hr)
  · rw [if_neg hl] at h
    exact hs l r h

theorem countersOk_runCalls (calls : List Call) :
    ∀ s : HealthStore, (∀ l r, lookupLoc s l = some r → countersOk r) →
      ∀ l r, lookupLoc (runCalls s calls) l = some r → countersOk r := by
  induction calls with
  | nil => intro s hs; exact hs
  | cons c cs ih =>
      intro s hs
      exact ih _ (countersOk_record_attempt s hs c)

theorem outageOk_nil : outageOk [] emptyStore := by
  intro l
  left
  exact ⟨rfl, rfl⟩

theorem outageOk_snoc (cs : List Call) (s : HealthStore) (h : outageOk cs s)
    (c : Call) :
    outageOk (cs ++ [c]) (record_attempt s c.location c.success
      c.forecast_time c.error_message c.now) := by
  intro l
  rw [lookupLoc_record_attempt, lastOutcome_append_single]
  by_cases hl : l = c.location
  · subst hl
    rw [if_pos rfl, if_pos rfl]
    right
    refine ⟨_, rfl, ?_⟩
    have hshape :
        (prevRecord (lookupLoc s c.location) c.now).current_outage_start =
          none ∨
        ∃ t, (prevRecord (lookupLoc s c.location) c.now).current_outage_start =
          some (.naive t) := by
      rcases h c.location with ⟨hn, _⟩ | ⟨r, hr, hcase⟩
      · rw [hn]
        left
        rfl
      · rw [hr]
        rcases hcase with ⟨_, hcos⟩ | ⟨_, t, hcos⟩
        · left
          exact hcos
        · right
          exact ⟨t, hcos⟩
    cases hc : c.success
    · right
      refine ⟨rfl, ?_⟩
      rw [stepRecord_failure_eq]
      rcases hshape with hn | ⟨t, ht⟩
      · exact ⟨c.now, by simp [hn, truthyOpt]⟩
      · exact ⟨t, by simp [ht, truthyOpt, TimeStr.truthy]⟩
    · left
      refine ⟨rfl, ?_⟩
      rcases hshape with hn | ⟨t, ht⟩
      · exact (stepRecord_success_nocos _ _ _ _ hn).1
      · exact (stepRecord_success_outage _ _ _ _ t ht).1
  · rw [if_neg hl, if_neg (fun hh : c.location = l => hl hh.symm)]
    exact h l

theorem outageOk_runCalls (calls : List Call) :
    outageOk calls (runCalls emptyStore calls) := by
  induction calls using List.reverseRecOn with
  | nil => exact outageOk_nil
  | append_singleton cs c ih =>
      rw [runCalls_append]
      exact outageOk_snoc cs _ ih c

theorem decodeOptTime_optTimeJ (x : Option TimeStr) :
    decodeOptTime (optTimeJ x) = some x := by
  cases x <;> rfl

theorem outageEventFromJson_toJson (e : OutageEvent) :
    outageEventFromJson (outageEventToJson e) = some e := rfl

theorem decodeOutages_map (l : List OutageEvent) :
    decodeOutages (l.map outageEventToJson) = some l := by
  induction l with
  | nil => rfl
  | cons e t ih => simp [decodeOutages, outageEventFromJson_toJson, ih]

set_option maxHeartbeats 2000000 in
theorem recordFromJson_toJson (r : LocationRecord) :
    recordFromJson (recordToJson r) = some r := by
  obtain ⟨fs, ta, sa, fa, la, ls, lf, le, co, oh, lft, sfc, lsw⟩ := r
  simp only [recordToJson, recordFromJson, decodeOptTime_optTimeJ,
    decodeOutages_map]
  cases la <;> rcases le with _ | (_ | m) <;> cases lsw <;>
    simp [takeLastAttempt, takeLastError, takeLastStaleWarning]

theorem decodeLocations_map (l : List (String × LocationRecord)) :
    decodeLocations (l.map (fun p => (p.1, recordToJson p.2))) = some l := by
  induction l with
  | nil => rfl
  | cons p t ih => simp [decodeLocations, recordFromJson_toJson, ih]

/-! ### Claim theorems -/

/-- C8: for every well-formed store (the section-6 JSON document: a
`locations` mapping of location records plus `last_updated`), the document
written by `_save_health_data` is read back by `_load_health_data` into a
store equal to the original field for field. -/
theorem save_load_roundtrip (x : HealthStore) :
    storeFromJson (storeToJson x) = some x := by
  obtain ⟨locs, lu⟩ := x
  simp [storeToJson, storeFromJson, decodeLocations_map, decodeOptTime_optTimeJ]

/-- C2 (code bug): a successful `record_attempt` whose `forecast_time` is a
parseable Z-suffixed/offset ISO-8601 timestamp 24 hours in the past leaves
`stale_forecast_count` at 0 and `last_stale_warning` unset, although the
claim requires an increment for any parseable forecast time more than 12
hours old.  The same instant written timezone-naive does increment the
counter, isolating the failure to the aware-naive subtraction at
monitor.py line 100, whose TypeError the bare `except` swallows. -/
theorem stale_count_not_incremented_for_z_suffix :
    ((lookupLoc (record_attempt emptyStore "A" true (some (.aware 0)) none
        86400) "A").map LocationRecord.stale_forecast_count = some 0 ∧
     (lookupLoc (record_attempt emptyStore "A" true (some (.aware 0)) none
        86400) "A").map LocationRecord.last_stale_warning = some none) ∧
    (lookupLoc (record_attempt emptyStore "A" true (some (.naive 0)) none
        86400) "A").map LocationRecord.stale_forecast_count = some 1 :=
  ⟨⟨rfl, rfl⟩, rfl⟩

/-- C3 (code bug): `get_location_status` parses `last_success` with no
try/except (monitor.py line 174), so on a stored record with no open outage
and a malformed `last_success` string the call raises a ValueError instead
of returning a status object. -/
theorem get_location_status_raises_on_malformed_last_success :
    get_location_status malformedLoadedStore "A" 3600 = .error () := rfl

/-- C7 (code bug): `check_data_freshness` returns true for a payload whose
`updated` field is a parseable Z-suffixed/offset timestamp 24 hours old,
although the claim requires false for any present, parseable timestamp more
than 12 hours old; the identical instant written timezone-naive yields
false, and absent or unparseable fields yield true as claimed. -/
theorem check_data_freshness_true_for_stale_z_suffix :
    check_data_freshness (some (.str (.aware 0))) 86400 = true ∧
    check_data_freshness (some (.str (.naive 0))) 86400 = false ∧
    check_data_freshness none 86400 = true ∧
    check_data_freshness (some (.str .malformed)) 86400 = true ∧
    check_data_freshness (some .nonstr) 86400 = true :=
  ⟨rfl, rfl, rfl, rfl, rfl⟩

/-- C9 counterexample: a success at time 0 stores `last_forecast_time`
(naive 0); a second success whose supplied `forecast_time` is non-empty but
unparseable OVERWRITES `last_forecast_time` with the unparseable string,
while the claim says an unparseable `forecast_time` leaves it unchanged. -/
theorem last_forecast_time_overwritten_when_unparseable :
    (lookupLoc (record_attempt emptyStore "A" true (some (.naive 0)) none 0)
        "A").map LocationRecord.last_forecast_time = some (some (.naive 0)) ∧
    (lookupLoc (record_attempt
        (record_attempt emptyStore "A" true (some (.naive 0)) none 0)
        "A" true (some .malformed) none 60) "A").map
      LocationRecord.last_forecast_time = some (some .malformed) :=
  ⟨rfl, rfl⟩

/-- C9 (amended): on a successful `record_attempt`, `last_forecast_time` is
set to the supplied `forecast_time` exactly when it is supplied and
non-empty (Python truthy), regardless of whether it parses; when it is
absent or the empty string, `last_forecast_time` is unchanged (line 93 of
monitor.py stores the raw string before any parse is attempted). -/
theorem last_forecast_time_follows_truthiness (s : HealthStore) (l : String)
    (ft : Option TimeStr) (em : Option String) (now : Int) :
    (lookupLoc (record_attempt s l true ft em now) l).map
        LocationRecord.last_forecast_time =
      some (if truthyOpt ft then ft
        else (prevRecord (lookupLoc s l) now).last_forecast_time) := by
  rw [lookupLoc_record_attempt, if_pos rfl]
  simp [stepRecord_success_lft]

/-- C1: a failed `record_attempt` while `current_outage_start` is unset (the
location is new or its record has no open outage) stamps
`current_outage_start` with the call's `now`; a successful call while an
outage opened at `t0` is pending clears it and appends exactly one
`OutageEvent` from the recorded start to that success's timestamp whose
`duration_minutes` is the floor of the elapsed minutes (stated for a clock
that did not run backwards, `t0 ≤ now`, where Python's truncation equals the
floor). -/
theorem outage_open_and_close (s : HealthStore) (l : String)
    (ft : Option TimeStr) (em : Option String) (now t0 : Int) :
    ((lookupLoc s l = none ∨
      (∃ r, lookupLoc s l = some r ∧ r.current_outage_start = none)) →
      ∃ r1, lookupLoc (record_attempt s l false ft em now) l = some r1 ∧
        r1.current_outage_start = some (.naive now)) ∧
    (∀ r, lookupLoc s l = some r →
      r.current_outage_start = some (.naive t0) → t0 ≤ now →
      ∃ r1, lookupLoc (record_attempt s l true ft em now) l = some r1 ∧
        r1.current_outage_start = none ∧
        r1.outage_history = r.outage_history ++
          [{ start := .naive t0, stop := .naive now,
             duration_minutes := Int.fdiv (now - t0) 60 }]) := by
  constructor
  · intro h0
    refine ⟨stepRecord (lookupLoc s l) false ft em now, ?_, ?_⟩
    · rw [lookupLoc_record_attempt, if_pos rfl]
    · rw [stepRecord_failure_eq]
      have hcos :
          (prevRecord (lookupLoc s l) now).current_outage_start = none := by
        rcases h0 with hn | ⟨r, hr, hcos⟩
        · rw [hn]
          rfl
        · rw [hr]
          exact hcos
      simp [hcos, truthyOpt]
  · intro r hr hcos hle
    refine ⟨stepRecord (lookupLoc s l) true ft em now, ?_, ?_⟩
    · rw [lookupLoc_record_attempt, if_pos rfl]
    · have hprev :
          (prevRecord (lookupLoc s l) now).current_outage_start =
            some (.naive t0) := by
        rw [hr]
        exact hcos
      obtain ⟨h1, h2⟩ :=
        stepRecord_success_outage (lookupLoc s l) ft em now t0 hprev
      refine ⟨h1, ?_⟩
      rw [h2]
      have hh : (prevRecord (lookupLoc s l) now).outage_history =
          r.outage_history := by
        rw [hr]
        exact rfl
      rw [hh, tdiv_eq_fdiv_of_nonneg (by omega) (by norm_num)]

/-- Witness for C1: failure at time 100 opens the outage with start 100;
success at time 1900 closes it with one 30-minute event. -/
theorem outage_open_and_close_witness :
    (∃ r1, lookupLoc (record_attempt emptyStore "A" false none
        (some "timeout") 100) "A" = some r1 ∧
      r1.current_outage_start = some (.naive 100)) ∧
    (∃ r1, lookupLoc (record_attempt
        (record_attempt emptyStore "A" false none (some "timeout") 100)
        "A" true none none 1900) "A" = some r1 ∧
      r1.current_outage_start = none ∧
      r1.outage_history =
        (stepRecord none false none (some "timeout") 100).outage_history ++
          [{ start := .naive 100, stop := .naive 1900,
             duration_minutes := Int.fdiv (1900 - 100) 60 }]) := by
  constructor
  · exact (outage_open_and_close emptyStore "A" none (some "timeout")
      100 0).1 (Or.inl rfl)
  · exact (outage_open_and_close
      (record_attempt emptyStore "A" false none (some "timeout") 100)
      "A" none none 1900 100).2 _ rfl rfl (by norm_num)

/-- C5: starting from the fresh empty store, after any finite sequence of
`record_attempt` calls every existing location record satisfies
`total_attempts = successful_attempts + failed_attempts`, and all three
counters are non-negative. -/
theorem counters_invariant (calls : List Call) (l : String)
    (r : LocationRecord)
    (h : lookupLoc (runCalls emptyStore calls) l = some r) :
    r.total_attempts = r.successful_attempts + r.failed_attempts ∧
    0 ≤ r.total_attempts ∧ 0 ≤ r.successful_attempts ∧
    0 ≤ r.failed_attempts :=
  countersOk_runCalls calls emptyStore
    (fun l r h => by simp [lookupLoc, emptyStore] at h) l r h

/-- Witness for C5: one success then one failure for "A". -/
theorem counters_invariant_witness :
    ∃ r, lookupLoc (runCalls emptyStore
        [{ location := "A", success := true, forecast_time := none,
           error_message := none, now := 0 },
         { location := "A", success := false, forecast_time := none,
           error_message := some "x", now := 60 }]) "A" = some r ∧
      (r.total_attempts = r.successful_attempts + r.failed_attempts ∧
       0 ≤ r.total_attempts ∧ 0 ≤ r.successful_attempts ∧
       0 ≤ r.failed_attempts) :=
  ⟨_, rfl, counters_invariant
    [{ location := "A", success := true, forecast_time := none,
       error_message := none, now := 0 },
     { location := "A", success := false, forecast_time := none,
       error_message := some "x", now := 60 }] "A" _ rfl⟩

/-- C6: starting from the fresh empty store, after any sequence of
`record_attempt` calls a location's record exists exactly when the location
has been the subject of a call, and its `current_outage_start` is null
exactly when the most recent recorded attempt for it succeeded. -/
theorem current_outage_start_iff_last_success (calls : List Call)
    (l : String) :
    (∀ r, lookupLoc (runCalls emptyStore calls) l = some r →
      (r.current_outage_start = none ↔ lastOutcome l calls = some true)) ∧
    (lookupLoc (runCalls emptyStore calls) l = none ↔
      lastOutcome l calls = none) := by
  have h := outageOk_runCalls calls l
  constructor
  · intro r hr
    rcases h with ⟨hn, _⟩ | ⟨r2, hr2, hcase⟩
    · rw [hr] at hn
      cases hn
    · rw [hr] at hr2
      injection hr2 with he
      subst he
      rcases hcase with ⟨ho, hcos⟩ | ⟨ho, t, hcos⟩
      · rw [ho, hcos]
        simp
      · rw [ho, hcos]
        simp
  · constructor
    · intro hl
      rcases h with ⟨_, ho⟩ | ⟨r2, hr2, _⟩
      · exact ho
      · rw [hl] at hr2
        cases hr2
    · intro ho
      rcases h with ⟨hn, _⟩ | ⟨r2, _, hcase⟩
      · exact hn
      · rcases hcase with ⟨ho2, _⟩ | ⟨ho2, _⟩ <;> rw [ho] at ho2 <;>
          cases ho2

/-- Witness for C6: after a success then a failure for "A", the record
exists and `current_outage_start` is non-null. -/
theorem current_outage_start_iff_last_success_witness :
    ∃ r, lookupLoc (runCalls emptyStore
        [{ location := "A", success := true, forecast_time := none,
           error_message := none, now := 0 },
         { location := "A", success := false, forecast_time := none,
           error_message := some "x", now := 60 }]) "A" = some r ∧
      (r.current_outage_start = none ↔
        lastOutcome "A"
          [{ location := "A", success := true, forecast_time := none,
             error_message := none, now := 0 },
           { location := "A", success := false, forecast_time := none,
             error_message := some "x", now := 60 }] = some true) :=
  ⟨_, rfl, (current_outage_start_iff_last_success
    [{ location := "A", success := true, forecast_time := none,
       error_message := none, now := 0 },
     { location := "A", success := false, forecast_time := none,
       error_message := some "x", now := 60 }] "A").1 _ rfl⟩

/-- C10: `record_attempt` never validates or inspects its location string:
for any location not yet present — the empty string included — the call
creates a record under that key and produces exactly the record any other
fresh location would get from the same arguments (the embedding is total,
matching the absence of any raising path in lines 50-130 of monitor.py). -/
theorem record_attempt_ignores_location_content (l₁ l₂ : String)
    (s₁ s₂ : HealthStore) (b : Bool) (ft : Option TimeStr)
    (em : Option String) (now : Int)
    (h₁ : lookupLoc s₁ l₁ = none) (h₂ : lookupLoc s₂ l₂ = none) :
    lookupLoc (record_attempt s₁ l₁ b ft em now) l₁ =
      some (stepRecord none b ft em now) ∧
    lookupLoc (record_attempt s₁ l₁ b ft em now) l₁ =
      lookupLoc (record_attempt s₂ l₂ b ft em now) l₂ := by
  have e₁ : lookupLoc (record_attempt s₁ l₁ b ft em now) l₁ =
      some (stepRecord none b ft em now) := by
    rw [lookupLoc_record_attempt, if_pos rfl, h₁]
  have e₂ : lookupLoc (record_attempt s₂ l₂ b ft em now) l₂ =
      some (stepRecord none b ft em now) := by
    rw [lookupLoc_record_attempt, if_pos rfl, h₂]
  exact ⟨e₁, e₁.trans e₂.symm⟩

/-- Witness for C10: the empty location string behaves exactly like a
normal zip-code key. -/
theorem record_attempt_ignores_location_content_witness :
    lookupLoc (record_attempt emptyStore "" false none (some "err") 5) "" =
      some (stepRecord none false none (some "err") 5) ∧
    lookupLoc (record_attempt emptyStore "" false none (some "err") 5) "" =
      lookupLoc (record_attempt emptyStore "99660" false none (some "err") 5)
        "99660" :=
  record_attempt_ignores_location_content "" "99660" emptyStore emptyStore
    false none (some "err") 5 rfl rfl

/-- C4: `get_location_status` follows the first-match decision order for
every record whose stored timestamps have the recorder's timezone-naive
form, at every `now`: a missing record gives `unknown`; an open outage
gives `offline` regardless of `last_success` recency or staleness count; a
`last_success` less than 2 hours old gives `warning` when
`stale_forecast_count` is positive and `online` when it is zero; a
`last_success` at least 2 hours old gives `stale` reporting the floor of
the elapsed hours; a record that never succeeded gives `unknown`. -/
theorem get_location_status_decision_order (s : HealthStore) (l : String)
    (now : Int) :
    (lookupLoc s l = none →
      get_location_status s l now =
        .ok (.unknown "No forecast attempts recorded")) ∧
    (∀ r, lookupLoc s l = some r →
      ((∀ t0, r.current_outage_start = some (.naive t0) →
        get_location_status s l now =
          .ok (.offline (Int.tdiv (now - t0) 60) (.naive t0)
            (match r.last_error with
             | none => some "Unknown error"
             | some v => v))) ∧
       (r.current_outage_start = none →
        ((∀ ts, r.last_success = some (.naive ts) → now - ts < 7200 →
            ((0 < r.stale_forecast_count →
               get_location_status s l now =
                 .ok (.warning r.stale_forecast_count (.naive ts))) ∧
             (r.stale_forecast_count = 0 →
               get_location_status s l now =
                 .ok (.online (.naive ts) r.last_forecast_time)))) ∧
         (∀ ts, r.last_success = some (.naive ts) → 7200 ≤ now - ts →
            get_location_status s l now =
              .ok (.stale (Int.fdiv (now - ts) 3600) (.naive ts))) ∧
         (r.last_success = none →
            get_location_status s l now =
              .ok (.unknown "No successful fetches yet")))))) := by
  constructor
  · intro h
    simp [get_location_status, h]
  · intro r hr
    constructor
    · intro t0 hcos
      simp [get_location_status, hr, hcos, TimeStr.truthy,
        _calculate_duration, fromisoformat, pySub]
    · intro hcos
      refine ⟨?_, ?_, ?_⟩
      · intro ts hls hlt
        constructor
        · intro hsc
          simp [get_location_status, statusFromLastSuccess, hr, hcos, hls,
            TimeStr.truthy, fromisoformat, pySub, hlt, hsc]
        · intro hsc
          simp [get_location_status, statusFromLastSuccess, hr, hcos, hls,
            TimeStr.truthy, fromisoformat, pySub, hlt, hsc]
      · intro ts hls hge
        have hnlt : ¬ (now - ts < 7200) := not_lt.mpr hge
        have hdv : Int.tdiv (now - ts) 3600 = Int.fdiv (now - ts) 3600 :=
          tdiv_eq_fdiv_of_nonneg (by omega) (by norm_num)
        simp [get_location_status, statusFromLastSuccess, hr, hcos, hls,
          TimeStr.truthy, fromisoformat, pySub, hnlt, hdv]
      · intro hls
        simp [get_location_status, statusFromLastSuccess, hr, hcos, hls]

/-- Witness for C4: a single success at time 0 with no forecast timestamp
classifies as `online` at time 1000. -/
theorem get_location_status_decision_order_witness :
    get_location_status (record_attempt emptyStore "A" true none none 0)
      "A" 1000 = .ok (.online (.naive 0) none) := by
  have h := (get_location_status_decision_order
    (record_attempt emptyStore "A" true none none 0) "A" 1000).2
    (stepRecord none true none none 0) rfl
  exact (((h.2 rfl).1) 0 rfl (by norm_num)).2 rfl
